import Mathlib

/-!
# Verification of `cursor_council.py` (trungnob/llm-council)

A shallow embedding of the three-stage LLM-council pipeline. The external
`cursor-agent` process is nondeterministic, so each embedded operation takes
the environment's behaviour as an explicit argument:

* `env : Call → RunResult` gives, for each subprocess invocation (model,
  prompt, timeout), the outcome the operating system delivers: a completed
  process with a return code and captured streams, a timeout, a missing
  binary, or some other exception.
* `exc : String → String → Bool` says whether the thread-pool future for a
  given (model, prompt) raises an unexpected exception when its result is
  collected (`future.result()` in `query_models_parallel`).
* A dispatch call collects results in completion order, which is
  nondeterministic; the order is passed as an explicit list `order`, assumed
  (in theorems) to be a permutation of the submitted model list.

Functions that invoke the external process also return the list of `Call`s
they issued, embedding the subprocess side effect as an explicit trace.
Python string operations used by the code (`str.strip`, `str.lower`,
substring `in`) are modelled over the string's character list so that they
evaluate by kernel reduction.
-/

namespace LlmCouncil

/-- Python `str.strip()`: drop leading and trailing whitespace. -/
def py_strip (s : String) : String :=
  ⟨((s.data.dropWhile Char.isWhitespace).reverse.dropWhile Char.isWhitespace).reverse⟩

/-- Python `str.lower()` (ASCII case folding, as used on the status output). -/
def py_lower (s : String) : String :=
  ⟨s.data.map Char.toLower⟩

/-- Does the character list `l` start with `p`? -/
def charsStartWith : List Char → List Char → Bool
  | [], _ => true
  | _ :: _, [] => false
  | a :: p, b :: l => a = b && charsStartWith p l

/-- Does the character list `l` contain `p` as a contiguous sublist? -/
def charsContain (p : List Char) : List Char → Bool
  | [] => charsStartWith p []
  | b :: l => charsStartWith p (b :: l) || charsContain p l

/-- Python `pat in s` for strings: substring containment. -/
def py_in (pat s : String) : Bool :=
  charsContain pat.data s.data

/-- `COUNCIL_MODELS` of `cursor_council.py`. -/
def COUNCIL_MODELS : List String :=
  ["sonnet-4.5", "gemini-3-pro", "gpt-5.1"]

/-- `CHAIRMAN_MODEL` of `cursor_council.py`. -/
def CHAIRMAN_MODEL : String := "sonnet-4.5"

/-- `TIMEOUT` of `cursor_council.py` (seconds). -/
def TIMEOUT : Nat := 120

/-- One invocation of the external `cursor-agent` binary: the model flag, the
prompt argument and the timeout handed to `subprocess.run`. -/
structure Call where
  model : String
  prompt : String
  timeout : Nat
deriving DecidableEq, Repr

/-- What `subprocess.run` does for one call: a completed process (with return
code, captured stdout and stderr), a `TimeoutExpired`, a `FileNotFoundError`
(binary missing), or any other exception. -/
inductive RunResult where
  | completed (returncode : Int) (stdout : String) (stderr : String)
  | timeoutExpired
  | fileNotFound
  | otherException
deriving DecidableEq, Repr

/-- `query_model` of `cursor_council.py`: run the external process once; on
exit code zero return the stripped stdout, on every failure mode (non-zero
exit, timeout, missing binary, other exception) return `none`. Also returns
the single `Call` it issued. -/
def query_model (env : Call → RunResult) (model : String) (prompt : String)
    (timeout : Nat := TIMEOUT) : Option String × List Call :=
  let call : Call := ⟨model, prompt, timeout⟩
  match env call with
  | .completed returncode stdout _stderr =>
      (if returncode = 0 then some (py_strip stdout) else none, [call])
  | .timeoutExpired => (none, [call])
  | .fileNotFound => (none, [call])
  | .otherException => (none, [call])

/-- `query_models_parallel` of `cursor_council.py`: submit one `query_model`
task per model to a thread pool and collect results as the futures complete
(`order`), mapping a future that raises (`exc`) to `none`. The result list is
keyed by model in completion order, mirroring the Python dict built by
insertion; the issued calls are one per submitted model. -/
def query_models_parallel (env : Call → RunResult) (exc : String → String → Bool)
    (models : List String) (prompt : String) (order : List String) :
    List (String × Option String) × List Call :=
  (order.map fun model =>
    (model, if exc model prompt then none else (query_model env model prompt).1),
   models.map fun model => Call.mk model prompt TIMEOUT)

/-- A surviving Stage-1 answer: the dict `{"model": ..., "response": ...}`. -/
structure ResponseRecord where
  model : String
  response : String
deriving DecidableEq, Repr

/-- A surviving Stage-2 review: the dict `{"model": ..., "ranking": ...}`. -/
structure RankingRecord where
  model : String
  ranking : String
deriving DecidableEq, Repr

/-- The Stage-1 filtering loop: keep `(model, response)` pairs whose response
is truthy (present and non-empty), in order. -/
def keep_present_responses (responses : List (String × Option String)) :
    List ResponseRecord :=
  responses.filterMap fun p =>
    match p.2 with
    | some response => if response = "" then none else some ⟨p.1, response⟩
    | none => none

/-- The Stage-2 filtering loop: keep `(model, ranking)` pairs whose ranking
is truthy (present and non-empty), in order. -/
def keep_present_rankings (responses : List (String × Option String)) :
    List RankingRecord :=
  responses.filterMap fun p =>
    match p.2 with
    | some ranking => if ranking = "" then none else some ⟨p.1, ranking⟩
    | none => none

/-- `stage1_collect_responses`: dispatch the user query to the council and
keep the truthy answers as `ResponseRecord`s, in completion order. -/
def stage1_collect_responses (env : Call → RunResult) (exc : String → String → Bool)
    (user_query : String) (order : List String) :
    List ResponseRecord × List Call :=
  let responses := query_models_parallel env exc COUNCIL_MODELS user_query order
  (keep_present_responses responses.1, responses.2)

/-- The label list of `stage2_collect_rankings`:
`labels = [chr(65 + i) for i in range(len(stage1_results))]`. -/
def stage2_labels (stage1_results : List ResponseRecord) : List Char :=
  (List.range stage1_results.length).map fun i => Char.ofNat (65 + i)

/-- The `responses_text` block of `stage2_collect_rankings`: each response
under its positional label, joined by separators. -/
def stage2_responses_text (stage1_results : List ResponseRecord) : String :=
  String.intercalate "\n\n---\n\n"
    (((stage2_labels stage1_results).zip stage1_results).map fun p =>
      "**Response " ++ p.1.toString ++ ":**\n" ++ p.2.response)

/-- The `ranking_prompt` f-string of `stage2_collect_rankings`. -/
def stage2_ranking_prompt (user_query : String)
    (stage1_results : List ResponseRecord) : String :=
  "You are evaluating different AI responses to this question:\n\nQUESTION: "
    ++ user_query
    ++ "\n\nHere are the anonymized responses:\n\n"
    ++ stage2_responses_text stage1_results
    ++ "\n\n---\n\nPlease:\n1. Briefly evaluate each response\x27s strengths and weaknesses\n2. End with a FINAL RANKING from best to worst:\n\nFINAL RANKING:\n1. Response X\n2. Response Y\n(etc.)"

/-- The Label-to-ModelIdentifier mapping printed after Stage-2 collection
(`Response {label} = {result['model']}` for `zip(labels, stage1_results)`). -/
def stage2_reveal (stage1_results : List ResponseRecord) : List (Char × String) :=
  ((stage2_labels stage1_results).zip stage1_results).map fun p => (p.1, p.2.model)

/-- `stage2_collect_rankings`: build the anonymized review prompt from the
Stage-1 records, dispatch it to the council, and keep the truthy reviews as
`RankingRecord`s in completion order. -/
def stage2_collect_rankings (env : Call → RunResult) (exc : String → String → Bool)
    (user_query : String) (stage1_results : List ResponseRecord)
    (order : List String) : List RankingRecord × List Call :=
  let responses := query_models_parallel env exc COUNCIL_MODELS
    (stage2_ranking_prompt user_query stage1_results) order
  (keep_present_rankings responses.1, responses.2)

/-- The `stage1_text` block of `stage3_synthesize`: each Stage-1 response
under its real model identifier. -/
def stage1_text_of (stage1_results : List ResponseRecord) : String :=
  String.intercalate "\n\n---\n\n"
    (stage1_results.map fun r => "### " ++ r.model ++ ":\n" ++ r.response)

/-- The `stage2_text` block of `stage3_synthesize`: each Stage-2 review under
its real model identifier. -/
def stage2_text_of (stage2_results : List RankingRecord) : String :=
  String.intercalate "\n\n---\n\n"
    (stage2_results.map fun r => "### " ++ r.model ++ "\x27s evaluation:\n" ++ r.ranking)

/-- The `chairman_prompt` f-string of `stage3_synthesize`: a function of the
original query and the raw Stage-1/Stage-2 records only. -/
def chairman_prompt (user_query : String) (stage1_results : List ResponseRecord)
    (stage2_results : List RankingRecord) : String :=
  "You are the Chairman of an LLM Council. Your job is to synthesize multiple AI responses into ONE comprehensive, accurate final answer.\n\nORIGINAL QUESTION: "
    ++ user_query
    ++ "\n\n---\n\nSTAGE 1 - Individual Model Responses:\n\n"
    ++ stage1_text_of stage1_results
    ++ "\n\n---\n\nSTAGE 2 - Peer Evaluations & Rankings:\n\n"
    ++ stage2_text_of stage2_results
    ++ "\n\n---\n\nYOUR TASK:\nSynthesize all of this into a single, high-quality answer that:\n- Incorporates the best insights from all responses\n- Addresses any disagreements or gaps\n- Provides clear, accurate information\n\nProvide the final synthesized answer:"

/-- The fixed sentinel returned when the chairman call yields no truthy
answer. -/
def chairman_failure_message : String :=
  "Error: Chairman failed to synthesize response."

/-- `stage3_synthesize`: one `query_model` call to the chairman model with
timeout 180; return the truthy answer, or the fixed sentinel when the answer
is absent or empty. -/
def stage3_synthesize (env : Call → RunResult) (user_query : String)
    (stage1_results : List ResponseRecord) (stage2_results : List RankingRecord) :
    String × List Call :=
  let qm := query_model env CHAIRMAN_MODEL
    (chairman_prompt user_query stage1_results stage2_results) 180
  (match qm.1 with
   | some response => if response = "" then chairman_failure_message else response
   | none => chairman_failure_message,
   qm.2)

/-- What one `run_council` invocation produces: either the early halt when
Stage 1 has no survivors, or the three stages' data. -/
inductive CouncilOutcome where
  | noResponses
  | completed (stage1 : List ResponseRecord) (stage2 : List RankingRecord)
      (finalAnswer : String)
deriving DecidableEq, Repr

/-- `run_council`: Stage 1, halt if it is empty, skip Stage 2 unless more
than one response survived, then Stage 3. `order1`/`order2` are the two
dispatches' completion orders; the second component is the full call trace. -/
def run_council (env : Call → RunResult) (exc : String → String → Bool)
    (query : String) (order1 order2 : List String) :
    CouncilOutcome × List Call :=
  let s1 := stage1_collect_responses env exc query order1
  if s1.1 = [] then (.noResponses, s1.2)
  else
    let s2 := if s1.1.length > 1
      then stage2_collect_rankings env exc query s1.1 order2
      else ([], [])
    let s3 := stage3_synthesize env query s1.1 s2.1
    (.completed s1.1 s2.1 s3.1, s1.2 ++ s2.2 ++ s3.2)

/-- What the `cursor-agent status` probe of `check_cursor_agent` does:
completes with some stdout, raises `FileNotFoundError`, or raises any other
exception. -/
inductive StatusProbe where
  | completed (stdout : String)
  | fileNotFound
  | otherException
deriving DecidableEq, Repr

/-- `check_cursor_agent`: probe the binary; `false` when the status output
mentions not being logged in / authenticated or the binary is missing,
`true` otherwise (including on any other probe exception). -/
def check_cursor_agent (probe : StatusProbe) : Bool :=
  match probe with
  | .completed stdout =>
      if py_in "not logged in" (py_lower stdout)
          || py_in "not authenticated" (py_lower stdout) then false
      else true
  | .fileNotFound => false
  | .otherException => true

/-- What one `main` invocation produces: exit(1) on a failed environment
probe, exit(0) on empty interactive input, or a completed `run_council`. -/
inductive MainOutcome where
  | exitEnvError
  | exitEmptyQuery
  | ran (outcome : CouncilOutcome) (calls : List Call)
deriving DecidableEq, Repr

/-- `main`: abort with exit code 1 before any stage when the probe fails;
otherwise take the query from the argument list (joined by spaces) or from
the stripped interactive input, and run the council. `argv` models
`sys.argv[1:]`. -/
def main (env : Call → RunResult) (exc : String → String → Bool)
    (probe : StatusProbe) (argv : List String) (stdinLine : String)
    (order1 order2 : List String) : MainOutcome :=
  if check_cursor_agent probe = false then .exitEnvError
  else if argv ≠ [] then
    let rc := run_council env exc (String.intercalate " " argv) order1 order2
    .ran rc.1 rc.2
  else
    let query := py_strip stdinLine
    if query = "" then .exitEmptyQuery
    else
      let rc := run_council env exc query order1 order2
      .ran rc.1 rc.2

/-- An environment in which every call times out. -/
def envAllTimeout : Call → RunResult := fun _ => RunResult.timeoutExpired

/-- An environment in which every call exits 0 with stdout `"ok"`. -/
def envAllOk : Call → RunResult := fun _ => RunResult.completed 0 "ok" ""

/-- An environment in which every call exits 0 with empty stdout. -/
def envAllEmpty : Call → RunResult := fun _ => RunResult.completed 0 "" ""

/-- An environment in which every call raises `FileNotFoundError`. -/
def envAllFNF : Call → RunResult := fun _ => RunResult.fileNotFound

/-- No future raises an unexpected exception. -/
def excNone : String → String → Bool := fun _ _ => false

/-- An environment in which only the model `sonnet-4.5` answers (with `"ok"`)
and every other call times out. -/
def envOneOk : Call → RunResult := fun c =>
  if c.model = "sonnet-4.5" then RunResult.completed 0 "ok" "" else RunResult.timeoutExpired

/-- Like `envAllOk` but with padded stdout and noisy stderr: the raw process
output differs from `envAllOk`, the stripped records coincide. -/
def envAllOkPadded : Call → RunResult := fun _ => RunResult.completed 0 " ok " "junk"

/-! ## Helper lemmas -/

theorem query_model_calls (env : Call → RunResult) (model prompt : String)
    (timeout : Nat) :
    (query_model env model prompt timeout).2 = [Call.mk model prompt timeout] := by
  rcases h : env (Call.mk model prompt timeout) with ⟨rc, out, err⟩ | _ | _ | _ <;>
    simp [query_model, h]

theorem query_models_parallel_fst (env : Call → RunResult)
    (exc : String → String → Bool) (models : List String) (prompt : String)
    (order : List String) :
    ((query_models_parallel env exc models prompt order).1).map Prod.fst = order := by
  simp only [query_models_parallel, List.map_map]
  have hcomp : (Prod.fst ∘ fun model : String =>
      (model, if exc model prompt then none else (query_model env model prompt).1)) = id := rfl
  rw [hcomp, List.map_id]

theorem mem_keep_present_responses {l : List (String × Option String)}
    {r : ResponseRecord} (h : r ∈ keep_present_responses l) :
    r.response ≠ "" ∧ (r.model, some r.response) ∈ l := by
  unfold keep_present_responses at h
  rcases List.mem_filterMap.mp h with ⟨⟨m, o⟩, ha, hfa⟩
  cases o with
  | none => exact absurd hfa (by simp)
  | some s =>
    dsimp only at hfa
    by_cases hs : s = ""
    · rw [if_pos hs] at hfa
      exact absurd hfa (by simp)
    · rw [if_neg hs] at hfa
      cases Option.some.inj hfa
      exact ⟨hs, ha⟩

theorem mem_keep_present_rankings {l : List (String × Option String)}
    {r : RankingRecord} (h : r ∈ keep_present_rankings l) :
    r.ranking ≠ "" ∧ (r.model, some r.ranking) ∈ l := by
  unfold keep_present_rankings at h
  rcases List.mem_filterMap.mp h with ⟨⟨m, o⟩, ha, hfa⟩
  cases o with
  | none => exact absurd hfa (by simp)
  | some s =>
    dsimp only at hfa
    by_cases hs : s = ""
    · rw [if_pos hs] at hfa
      exact absurd hfa (by simp)
    · rw [if_neg hs] at hfa
      cases Option.some.inj hfa
      exact ⟨hs, ha⟩

theorem keep_present_responses_models_sublist :
    ∀ l : List (String × Option String),
      ((keep_present_responses l).map ResponseRecord.model).Sublist (l.map Prod.fst)
  | [] => List.Sublist.slnil
  | (m, o) :: t => by
    cases o with
    | none =>
      simpa [keep_present_responses] using
        List.Sublist.cons m (keep_present_responses_models_sublist t)
    | some s =>
      by_cases hs : s = ""
      · simpa [keep_present_responses, hs] using
          List.Sublist.cons m (keep_present_responses_models_sublist t)
      · simpa [keep_present_responses, hs] using
          List.Sublist.cons₂ m (keep_present_responses_models_sublist t)

theorem keep_present_responses_cons_none (m : String)
    (t : List (String × Option String)) :
    keep_present_responses ((m, none) :: t) = keep_present_responses t := rfl

theorem keep_present_responses_cons_some (m s : String)
    (t : List (String × Option String)) :
    keep_present_responses ((m, some s) :: t) =
      if s = "" then keep_present_responses t
      else ⟨m, s⟩ :: keep_present_responses t := by
  by_cases hs : s = "" <;>
    simp [keep_present_responses, List.filterMap_cons, hs]

theorem keep_present_rankings_cons_none (m : String)
    (t : List (String × Option String)) :
    keep_present_rankings ((m, none) :: t) = keep_present_rankings t := rfl

theorem keep_present_rankings_cons_some (m s : String)
    (t : List (String × Option String)) :
    keep_present_rankings ((m, some s) :: t) =
      if s = "" then keep_present_rankings t
      else ⟨m, s⟩ :: keep_present_rankings t := by
  by_cases hs : s = "" <;>
    simp [keep_present_rankings, List.filterMap_cons, hs]

theorem keep_present_responses_length_of_all
    (l : List (String × Option String))
    (h : ∀ p ∈ l, ∃ s, p.2 = some s ∧ s ≠ "") :
    (keep_present_responses l).length = l.length := by
  induction l with
  | nil => rfl
  | cons p t ih =>
    rcases h p (List.mem_cons_self p t) with ⟨s, hp, hs⟩
    have ht := ih fun q hq => h q (List.mem_cons_of_mem _ hq)
    rcases p with ⟨m, o⟩
    cases hp
    rw [keep_present_responses_cons_some, if_neg hs]
    simp [ht]

theorem keep_present_responses_eq_nil (l : List (String × Option String))
    (h : ∀ p ∈ l, p.2 = none) :
    keep_present_responses l = [] := by
  induction l with
  | nil => rfl
  | cons p t ih =>
    have hp := h p (List.mem_cons_self p t)
    have ht := ih fun q hq => h q (List.mem_cons_of_mem _ hq)
    rcases p with ⟨m, o⟩
    cases hp
    rw [keep_present_responses_cons_none, ht]

theorem range_letters_nodup (n : Nat) (hn : n ≤ 26) :
    ((List.range n).map fun i => Char.ofNat (65 + i)).Nodup := by
  have h26 : ∀ x < 26, ∀ y < 26,
      Char.ofNat (65 + x) = Char.ofNat (65 + y) → x = y := by decide
  refine List.Nodup.map_on ?_ (List.nodup_range n)
  intro x hx y hy hxy
  exact h26 x (lt_of_lt_of_le (List.mem_range.mp hx) hn)
    y (lt_of_lt_of_le (List.mem_range.mp hy) hn) hxy

theorem mem_map_call_prompt (models : List String) (prompt : String)
    {c : Call} (h : c ∈ models.map fun m => Call.mk m prompt TIMEOUT) :
    c.prompt = prompt := by
  rcases List.mem_map.mp h with ⟨m, _, rfl⟩
  rfl

theorem stage3_calls (env : Call → RunResult) (user_query : String)
    (s1 : List ResponseRecord) (s2 : List RankingRecord) :
    (stage3_synthesize env user_query s1 s2).2 =
      [Call.mk CHAIRMAN_MODEL (chairman_prompt user_query s1 s2) 180] := by
  unfold stage3_synthesize
  simpa using query_model_calls env CHAIRMAN_MODEL (chairman_prompt user_query s1 s2) 180

/-! ## Claims -/

/-- C1: for a list of distinct model identifiers, the mapping the parallel
dispatcher returns has one key per submitted model (its key list is a
duplicate-free permutation of the input, of the same length), every submitted
model has an entry, and a model whose call failed or whose future raised is
mapped to `none` rather than omitted. -/
theorem query_models_parallel_complete
    (env : Call → RunResult) (exc : String → String → Bool)
    (models : List String) (prompt : String) (order : List String)
    (hperm : order.Perm models) (hnd : models.Nodup) :
    (((query_models_parallel env exc models prompt order).1.map Prod.fst).Perm models) ∧
    ((query_models_parallel env exc models prompt order).1.map Prod.fst).Nodup ∧
    (query_models_parallel env exc models prompt order).1.length = models.length ∧
    (∀ m ∈ models, ∃ a, (m, a) ∈ (query_models_parallel env exc models prompt order).1) ∧
    (∀ m ∈ models, (exc m prompt = true ∨ (query_model env m prompt).1 = none) →
      (m, (none : Option String)) ∈ (query_models_parallel env exc models prompt order).1) := by
  have hfst := query_models_parallel_fst env exc models prompt order
  refine ⟨?_, ?_, ?_, ?_, ?_⟩
  · rw [hfst]; exact hperm
  · rw [hfst]; exact hperm.nodup_iff.mpr hnd
  · have hlen := congrArg List.length hfst
    rw [List.length_map] at hlen
    rw [hlen]; exact hperm.length_eq
  · intro m hm
    have hmo : m ∈ order := hperm.mem_iff.mpr hm
    exact ⟨_, List.mem_map_of_mem
      (fun model => (model, if exc model prompt then none
        else (query_model env model prompt).1)) hmo⟩
  · intro m hm hfail
    have hmo : m ∈ order := hperm.mem_iff.mpr hm
    have hval : (m, (none : Option String)) =
        (fun model => (model, if exc model prompt then none
          else (query_model env model prompt).1)) m := by
      rcases hfail with hexc | hqm
      · simp [hexc]
      · by_cases hexc : exc m prompt
        · simp [hexc]
        · simp [hexc, hqm]
    rw [hval]
    exact List.mem_map_of_mem _ hmo

/-- C1 witness: the dispatcher over two distinct models, both timing out,
collected in reversed completion order. -/
theorem query_models_parallel_complete_witness :
    (((query_models_parallel envAllTimeout excNone ["a", "b"] "q" ["b", "a"]).1.map
        Prod.fst).Perm ["a", "b"]) ∧
    ((query_models_parallel envAllTimeout excNone ["a", "b"] "q" ["b", "a"]).1.map
        Prod.fst).Nodup ∧
    (query_models_parallel envAllTimeout excNone ["a", "b"] "q" ["b", "a"]).1.length =
      (["a", "b"] : List String).length ∧
    (∀ m ∈ (["a", "b"] : List String), ∃ a,
      (m, a) ∈ (query_models_parallel envAllTimeout excNone ["a", "b"] "q" ["b", "a"]).1) ∧
    (∀ m ∈ (["a", "b"] : List String),
      (excNone m "q" = true ∨ (query_model envAllTimeout m "q").1 = none) →
      (m, (none : Option String)) ∈
        (query_models_parallel envAllTimeout excNone ["a", "b"] "q" ["b", "a"]).1) :=
  query_models_parallel_complete envAllTimeout excNone ["a", "b"] "q" ["b", "a"]
    (by decide) (by decide)

/-- C2 counterexample: every council call succeeds and returns a present
answer (`some ""`, empty stdout stripped), yet Stage 1's output length is not
the council size — the claim's success case needs non-empty answers. -/
theorem stage1_empty_success_cex :
    (∀ m ∈ COUNCIL_MODELS, (query_model envAllEmpty m "q").1 = some "") ∧
    (stage1_collect_responses envAllEmpty excNone "q" COUNCIL_MODELS).1.length ≠
      COUNCIL_MODELS.length := by decide

/-- C2 (amended): if every council call succeeds with a non-empty stripped
answer, Stage 1's length equals the council size; if every call fails (absent
answer), Stage 1 is empty and `run_council` halts as `noResponses` with only
the Stage-1 calls issued (no Stage 2 or Stage 3). -/
theorem stage1_length_and_halt
    (env : Call → RunResult) (exc : String → String → Bool) (query : String)
    (order1 order2 : List String) (hperm : order1.Perm COUNCIL_MODELS) :
    ((∀ m ∈ COUNCIL_MODELS, exc m query = false ∧
        ∃ s, (query_model env m query).1 = some s ∧ s ≠ "") →
      (stage1_collect_responses env exc query order1).1.length = COUNCIL_MODELS.length) ∧
    ((∀ m ∈ COUNCIL_MODELS, exc m query = true ∨ (query_model env m query).1 = none) →
      (stage1_collect_responses env exc query order1).1 = [] ∧
      run_council env exc query order1 order2 =
        (CouncilOutcome.noResponses, COUNCIL_MODELS.map fun m => Call.mk m query TIMEOUT)) := by
  constructor
  · intro h
    have hall : ∀ p ∈ (query_models_parallel env exc COUNCIL_MODELS query order1).1,
        ∃ s, p.2 = some s ∧ s ≠ "" := by
      intro p hp
      rcases List.mem_map.mp hp with ⟨m, hmo, rfl⟩
      have hm : m ∈ COUNCIL_MODELS := hperm.mem_iff.mp hmo
      rcases h m hm with ⟨hexc, s, hs, hsne⟩
      exact ⟨s, by simp [hexc, hs], hsne⟩
    have hlen := keep_present_responses_length_of_all _ hall
    have hfst := congrArg List.length (query_models_parallel_fst env exc COUNCIL_MODELS query order1)
    rw [List.length_map] at hfst
    calc (stage1_collect_responses env exc query order1).1.length
        = (query_models_parallel env exc COUNCIL_MODELS query order1).1.length := hlen
      _ = order1.length := hfst
      _ = COUNCIL_MODELS.length := hperm.length_eq
  · intro h
    have hnil : (stage1_collect_responses env exc query order1).1 = [] := by
      apply keep_present_responses_eq_nil
      intro p hp
      rcases List.mem_map.mp hp with ⟨m, hmo, rfl⟩
      have hm : m ∈ COUNCIL_MODELS := hperm.mem_iff.mp hmo
      rcases h m hm with hexc | hqm
      · simp [hexc]
      · by_cases hexc : exc m query
        · simp [hexc]
        · simp [hexc, hqm]
    refine ⟨hnil, ?_⟩
    simp only [run_council, hnil]
    rfl

/-- C2 witness: all three council models succeed with stdout `"ok"`. -/
theorem stage1_length_and_halt_witness :
    (stage1_collect_responses envAllOk excNone "q" COUNCIL_MODELS).1.length =
      COUNCIL_MODELS.length :=
  (stage1_length_and_halt envAllOk excNone "q" COUNCIL_MODELS COUNCIL_MODELS
      (List.Perm.refl _)).1
    (fun _ _ => ⟨rfl, "ok", rfl, by decide⟩)

/-- C3: when Stage 1 has fewer than two survivors, the run either halts or
completes with an empty Stage-2 sequence, the full call trace is the Stage-1
calls plus (when Stage 1 is non-empty) only the chairman call, and every
issued call carries either the user query or the chairman prompt — no
peer-review prompt is ever dispatched. -/
theorem run_council_skips_stage2
    (env : Call → RunResult) (exc : String → String → Bool) (query : String)
    (order1 order2 : List String)
    (hlt : (stage1_collect_responses env exc query order1).1.length < 2) :
    ((run_council env exc query order1 order2).1 = CouncilOutcome.noResponses ∨
      ∃ f, (run_council env exc query order1 order2).1 =
        CouncilOutcome.completed (stage1_collect_responses env exc query order1).1 [] f) ∧
    (run_council env exc query order1 order2).2 =
      (stage1_collect_responses env exc query order1).2 ++
        (if (stage1_collect_responses env exc query order1).1 = [] then []
          else (stage3_synthesize env query
            (stage1_collect_responses env exc query order1).1 []).2) ∧
    (∀ c ∈ (run_council env exc query order1 order2).2,
      c.prompt = query ∨
        c.prompt = chairman_prompt query (stage1_collect_responses env exc query order1).1 []) := by
  by_cases hnil : (stage1_collect_responses env exc query order1).1 = []
  · have hrun : run_council env exc query order1 order2 =
        (CouncilOutcome.noResponses, (stage1_collect_responses env exc query order1).2) := by
      simp [run_council, hnil]
    refine ⟨Or.inl (by rw [hrun]), ?_, ?_⟩
    · rw [hrun, if_pos hnil, List.append_nil]
    · intro c hc
      rw [hrun] at hc
      exact Or.inl (mem_map_call_prompt COUNCIL_MODELS query hc)
  · have hone : ¬ (stage1_collect_responses env exc query order1).1.length > 1 := by
      omega
    have hrun : run_council env exc query order1 order2 =
        (CouncilOutcome.completed (stage1_collect_responses env exc query order1).1 []
          (stage3_synthesize env query (stage1_collect_responses env exc query order1).1 []).1,
         (stage1_collect_responses env exc query order1).2 ++ [] ++
          (stage3_synthesize env query (stage1_collect_responses env exc query order1).1 []).2) := by
      simp only [run_council, if_neg hnil, if_neg hone]
    refine ⟨Or.inr ⟨_, by rw [hrun]⟩, ?_, ?_⟩
    · rw [hrun, if_neg hnil]
      simp
    · intro c hc
      rw [hrun] at hc
      simp only [List.append_nil, List.mem_append] at hc
      rcases hc with hc | hc
      · exact Or.inl (mem_map_call_prompt COUNCIL_MODELS query hc)
      · rw [stage3_calls] at hc
        rcases List.mem_singleton.mp hc with rfl
        exact Or.inr rfl

/-- C3 witness: only one model answers, so Stage 2 is skipped but Stage 3
still runs on the single record. -/
theorem run_council_skips_stage2_witness :
    (run_council envOneOk excNone "q" COUNCIL_MODELS COUNCIL_MODELS).1 =
      CouncilOutcome.noResponses ∨
    ∃ f, (run_council envOneOk excNone "q" COUNCIL_MODELS COUNCIL_MODELS).1 =
      CouncilOutcome.completed
        (stage1_collect_responses envOneOk excNone "q" COUNCIL_MODELS).1 [] f :=
  (run_council_skips_stage2 envOneOk excNone "q" COUNCIL_MODELS COUNCIL_MODELS
    (by decide)).1

/-- C4: the agent invoker returns the stripped captured stdout exactly when
the process exits with code zero, and returns `none` on every other outcome
(non-zero exit, timeout, missing binary, other exception); it is a total
function into `Option`, so no fault propagates to the caller. -/
theorem query_model_success_iff (env : Call → RunResult) (model prompt : String)
    (timeout : Nat) :
    (∀ s, (query_model env model prompt timeout).1 = some s ↔
      ∃ stdout stderr, env (Call.mk model prompt timeout) =
        RunResult.completed 0 stdout stderr ∧ s = py_strip stdout) ∧
    ((query_model env model prompt timeout).1 = none ↔
      ∀ returncode stdout stderr,
        env (Call.mk model prompt timeout) = RunResult.completed returncode stdout stderr →
        returncode ≠ 0) := by
  rcases henv : env (Call.mk model prompt timeout) with ⟨rc, stdout, stderr⟩ | _ | _ | _
  · by_cases hrc : rc = 0
    · subst hrc
      constructor
      · intro s
        simp [query_model, henv, eq_comm]
      · simp [query_model, henv]
    · constructor
      · intro s
        simp [query_model, henv, hrc]
      · simp [query_model, henv, hrc]
  · exact ⟨fun s => by simp [query_model, henv], by simp [query_model, henv]⟩
  · exact ⟨fun s => by simp [query_model, henv], by simp [query_model, henv]⟩
  · exact ⟨fun s => by simp [query_model, henv], by simp [query_model, henv]⟩

/-- C5 counterexample: the chairman call succeeds (exit code zero) with a
present answer `some ""`, yet Stage 3 returns the sentinel, not that trimmed
answer text — the claim's success case needs a non-empty trimmed answer. -/
theorem stage3_empty_success_cex :
    (query_model envAllEmpty CHAIRMAN_MODEL (chairman_prompt "q" [] []) 180).1 = some "" ∧
    (stage3_synthesize envAllEmpty "q" [] []).1 = chairman_failure_message ∧
    chairman_failure_message ≠ "" := by decide

/-- C5 (amended): Stage 3 issues exactly one call, to the chairman model with
timeout 180, which differs from the default per-model timeout; it returns the
stripped answer when the call succeeds with non-empty stripped stdout, and
the fixed sentinel when the answer is absent or strips to empty — it is a
total function into `String`, never raising to its caller. -/
theorem stage3_synthesize_spec (env : Call → RunResult) (user_query : String)
    (s1 : List ResponseRecord) (s2 : List RankingRecord) :
    (stage3_synthesize env user_query s1 s2).2 =
      [Call.mk CHAIRMAN_MODEL (chairman_prompt user_query s1 s2) 180] ∧
    (180 : Nat) ≠ TIMEOUT ∧
    (∀ stdout stderr,
      env (Call.mk CHAIRMAN_MODEL (chairman_prompt user_query s1 s2) 180) =
        RunResult.completed 0 stdout stderr →
      py_strip stdout ≠ "" →
      (stage3_synthesize env user_query s1 s2).1 = py_strip stdout) ∧
    (((query_model env CHAIRMAN_MODEL (chairman_prompt user_query s1 s2) 180).1 = none ∨
        (query_model env CHAIRMAN_MODEL (chairman_prompt user_query s1 s2) 180).1 = some "") →
      (stage3_synthesize env user_query s1 s2).1 = chairman_failure_message) := by
  refine ⟨stage3_calls env user_query s1 s2, by decide, ?_, ?_⟩
  · intro stdout stderr henv hne
    simp [stage3_synthesize, query_model, henv, hne]
  · intro habs
    rcases habs with habs | habs <;>
      simp [stage3_synthesize, habs]

/-- C6 counterexample: a `FileNotFoundError` raised by an individual model
call during Stage 1 is recovered locally as that call's absent answer, and
the stage still runs and issues all its calls — so "never recovered locally
as a per-call absent answer during a pipeline stage" fails on the code. -/
theorem query_model_fnf_cex :
    (query_model envAllFNF "sonnet-4.5" "q").1 = none ∧
    (stage1_collect_responses envAllFNF excNone "q" COUNCIL_MODELS).2 =
      COUNCIL_MODELS.map (fun m => Call.mk m "q" TIMEOUT) ∧
    (stage1_collect_responses envAllFNF excNone "q" COUNCIL_MODELS).1 = [] := by decide

/-- C6 (amended): when the startup status probe raises `FileNotFoundError`
(binary missing), `main` exits with the environment error before any stage
runs; a `FileNotFoundError` raised by an individual model call inside a stage
is, however, recovered locally as that call's absent answer. -/
theorem missing_binary_aborts_before_stages
    (env : Call → RunResult) (exc : String → String → Bool) (probe : StatusProbe)
    (argv : List String) (stdinLine : String) (order1 order2 : List String)
    (hprobe : probe = StatusProbe.fileNotFound) :
    main env exc probe argv stdinLine order1 order2 = MainOutcome.exitEnvError ∧
    check_cursor_agent probe = false ∧
    (∀ (model prompt : String) (t : Nat),
      env (Call.mk model prompt t) = RunResult.fileNotFound →
      (query_model env model prompt t).1 = none) := by
  subst hprobe
  refine ⟨by simp [main, check_cursor_agent], rfl, ?_⟩
  intro model prompt t h
  simp [query_model, h]

/-- C6 witness: a run whose probe and every call hit the missing binary. -/
theorem missing_binary_aborts_before_stages_witness :
    main envAllFNF excNone StatusProbe.fileNotFound ["q"] "" COUNCIL_MODELS COUNCIL_MODELS =
      MainOutcome.exitEnvError ∧
    check_cursor_agent StatusProbe.fileNotFound = false ∧
    (∀ (model prompt : String) (t : Nat),
      envAllFNF (Call.mk model prompt t) = RunResult.fileNotFound →
      (query_model envAllFNF model prompt t).1 = none) :=
  missing_binary_aborts_before_stages envAllFNF excNone StatusProbe.fileNotFound
    ["q"] "" COUNCIL_MODELS COUNCIL_MODELS rfl

/-- C7: every `ResponseRecord` Stage 1 returns and every `RankingRecord`
Stage 2 returns carries a non-empty model identifier (a council member) and
non-empty answer text: empty or absent answers are dropped, never stored. -/
theorem records_nonempty
    (env : Call → RunResult) (exc : String → String → Bool) (query : String)
    (order1 order2 : List String) (s1 : List ResponseRecord)
    (h1 : order1.Perm COUNCIL_MODELS) (h2 : order2.Perm COUNCIL_MODELS) :
    (∀ r ∈ (stage1_collect_responses env exc query order1).1,
      r.model ≠ "" ∧ r.response ≠ "") ∧
    (∀ r ∈ (stage2_collect_rankings env exc query s1 order2).1,
      r.model ≠ "" ∧ r.ranking ≠ "") := by
  have hcouncil : ∀ m ∈ COUNCIL_MODELS, m ≠ "" := by decide
  constructor
  · intro r hr
    obtain ⟨hne, hmem⟩ := mem_keep_present_responses hr
    rcases List.mem_map.mp hmem with ⟨m, hmo, heq⟩
    have hm : r.model = m := (congrArg Prod.fst heq).symm
    refine ⟨?_, hne⟩
    rw [hm]
    exact hcouncil m (h1.mem_iff.mp hmo)
  · intro r hr
    obtain ⟨hne, hmem⟩ := mem_keep_present_rankings hr
    rcases List.mem_map.mp hmem with ⟨m, hmo, heq⟩
    have hm : r.model = m := (congrArg Prod.fst heq).symm
    refine ⟨?_, hne⟩
    rw [hm]
    exact hcouncil m (h2.mem_iff.mp hmo)

/-- C7 witness: the all-success run at both stages. -/
theorem records_nonempty_witness :
    (∀ r ∈ (stage1_collect_responses envAllOk excNone "q" COUNCIL_MODELS).1,
      r.model ≠ "" ∧ r.response ≠ "") ∧
    (∀ r ∈ (stage2_collect_rankings envAllOk excNone "q" [] COUNCIL_MODELS).1,
      r.model ≠ "" ∧ r.ranking ≠ "") :=
  records_nonempty envAllOk excNone "q" COUNCIL_MODELS COUNCIL_MODELS []
    (List.Perm.refl _) (List.Perm.refl _)

theorem reveal_map_fst :
    ∀ (ls : List Char) (rs : List ResponseRecord), ls.length = rs.length →
      ((ls.zip rs).map fun p => (p.1, p.2.model)).map Prod.fst = ls
  | [], [], _ => rfl
  | [], _ :: _, h => by simp at h
  | _ :: _, [], h => by simp at h
  | l :: ls, r :: rs, h => by
    simp only [List.zip_cons_cons, List.map_cons]
    rw [reveal_map_fst ls rs (by simpa using h)]

theorem reveal_map_snd :
    ∀ (ls : List Char) (rs : List ResponseRecord), ls.length = rs.length →
      ((ls.zip rs).map fun p => (p.1, p.2.model)).map Prod.snd =
        rs.map ResponseRecord.model
  | [], [], _ => rfl
  | [], _ :: _, h => by simp at h
  | _ :: _, [], h => by simp at h
  | l :: ls, r :: rs, h => by
    simp only [List.zip_cons_cons, List.map_cons]
    rw [reveal_map_snd ls rs (by simpa using h)]

/-- The Stage-1 survivors' model identifiers are a sublist of the completion
order, hence duplicate-free whenever the order is. -/
theorem stage1_models_sublist (env : Call → RunResult)
    (exc : String → String → Bool) (query : String) (order1 : List String) :
    ((stage1_collect_responses env exc query order1).1.map
      ResponseRecord.model).Sublist order1 := by
  have h := keep_present_responses_models_sublist
    (query_models_parallel env exc COUNCIL_MODELS query order1).1
  rwa [query_models_parallel_fst] at h

/-- C8: in one Stage-2 invocation over the Stage-1 survivors, one label per
survivor is produced, assigned positionally from `A` (the i-th survivor gets
character 65+i), the labels are pairwise distinct, and the revealed
label-to-model mapping pairs those labels one-to-one with the survivors'
(pairwise distinct) model identifiers — a bijection. -/
theorem stage2_labels_bijective
    (env : Call → RunResult) (exc : String → String → Bool) (query : String)
    (order1 : List String) (s1 : List ResponseRecord)
    (hperm : order1.Perm COUNCIL_MODELS)
    (hs1 : s1 = (stage1_collect_responses env exc query order1).1) :
    (stage2_labels s1).length = s1.length ∧
    (∀ i, i < s1.length → (stage2_labels s1)[i]? = some (Char.ofNat (65 + i))) ∧
    (stage2_labels s1).Nodup ∧
    (stage2_reveal s1).map Prod.fst = stage2_labels s1 ∧
    (stage2_reveal s1).map Prod.snd = s1.map ResponseRecord.model ∧
    (s1.map ResponseRecord.model).Nodup := by
  have hsub : (s1.map ResponseRecord.model).Sublist order1 := by
    rw [hs1]
    exact stage1_models_sublist env exc query order1
  have hndo : order1.Nodup := hperm.nodup_iff.mpr (by decide)
  have hlen26 : s1.length ≤ 26 := by
    have hle := hsub.length_le
    rw [List.length_map] at hle
    have h3 := hperm.length_eq
    simp only [COUNCIL_MODELS, List.length_cons, List.length_nil] at h3
    omega
  have hlab : (stage2_labels s1).length = s1.length := by
    simp [stage2_labels]
  refine ⟨hlab, ?_, range_letters_nodup s1.length hlen26, ?_, ?_, hsub.nodup hndo⟩
  · intro i hi
    simp [stage2_labels, List.getElem?_map, List.getElem?_range, hi]
  · exact reveal_map_fst (stage2_labels s1) s1 hlab
  · exact reveal_map_snd (stage2_labels s1) s1 hlab

/-- C8 witness: the all-success Stage-1 output of the three council models. -/
theorem stage2_labels_bijective_witness :
    (stage2_labels (stage1_collect_responses envAllOk excNone "q" COUNCIL_MODELS).1).length =
      (stage1_collect_responses envAllOk excNone "q" COUNCIL_MODELS).1.length ∧
    (∀ i, i < (stage1_collect_responses envAllOk excNone "q" COUNCIL_MODELS).1.length →
      (stage2_labels (stage1_collect_responses envAllOk excNone "q" COUNCIL_MODELS).1)[i]? =
        some (Char.ofNat (65 + i))) ∧
    (stage2_labels (stage1_collect_responses envAllOk excNone "q" COUNCIL_MODELS).1).Nodup ∧
    (stage2_reveal (stage1_collect_responses envAllOk excNone "q" COUNCIL_MODELS).1).map
        Prod.fst =
      stage2_labels (stage1_collect_responses envAllOk excNone "q" COUNCIL_MODELS).1 ∧
    (stage2_reveal (stage1_collect_responses envAllOk excNone "q" COUNCIL_MODELS).1).map
        Prod.snd =
      (stage1_collect_responses envAllOk excNone "q" COUNCIL_MODELS).1.map
        ResponseRecord.model ∧
    ((stage1_collect_responses envAllOk excNone "q" COUNCIL_MODELS).1.map
      ResponseRecord.model).Nodup :=
  stage2_labels_bijective envAllOk excNone "q" COUNCIL_MODELS
    (stage1_collect_responses envAllOk excNone "q" COUNCIL_MODELS).1
    (List.Perm.refl _) rfl

/-- C9: the chairman prompt and Stage 3's result are functions of the query
and the Stage-1/Stage-2 record sequences only: two runs (different
environments, futures and completion orders) that produce the same records
get the same chairman prompt and the same Stage-3 behaviour — the
label-to-model reveal mapping of Stage 2 does not flow into Stage 3. -/
theorem chairman_prompt_ignores_reveal
    (envA envB envC : Call → RunResult) (excA excB : String → String → Bool)
    (query : String) (o1A o1B o2A o2B : List String)
    (hs1 : (stage1_collect_responses envA excA query o1A).1 =
      (stage1_collect_responses envB excB query o1B).1)
    (hs2 : (stage2_collect_rankings envA excA query
        (stage1_collect_responses envA excA query o1A).1 o2A).1 =
      (stage2_collect_rankings envB excB query
        (stage1_collect_responses envB excB query o1B).1 o2B).1) :
    chairman_prompt query (stage1_collect_responses envA excA query o1A).1
        (stage2_collect_rankings envA excA query
          (stage1_collect_responses envA excA query o1A).1 o2A).1 =
      chairman_prompt query (stage1_collect_responses envB excB query o1B).1
        (stage2_collect_rankings envB excB query
          (stage1_collect_responses envB excB query o1B).1 o2B).1 ∧
    stage3_synthesize envC query (stage1_collect_responses envA excA query o1A).1
        (stage2_collect_rankings envA excA query
          (stage1_collect_responses envA excA query o1A).1 o2A).1 =
      stage3_synthesize envC query (stage1_collect_responses envB excB query o1B).1
        (stage2_collect_rankings envB excB query
          (stage1_collect_responses envB excB query o1B).1 o2B).1 := by
  rw [hs1] at hs2 ⊢
  rw [hs2]
  exact ⟨rfl, rfl⟩

/-- C9 witness: two environments with different raw process output (padded
stdout, noisy stderr) that strip to the same records; the chairman prompts
and Stage-3 results coincide. -/
theorem chairman_prompt_ignores_reveal_witness :
    chairman_prompt "q" (stage1_collect_responses envAllOk excNone "q" COUNCIL_MODELS).1
        (stage2_collect_rankings envAllOk excNone "q"
          (stage1_collect_responses envAllOk excNone "q" COUNCIL_MODELS).1 COUNCIL_MODELS).1 =
      chairman_prompt "q"
        (stage1_collect_responses envAllOkPadded excNone "q" COUNCIL_MODELS).1
        (stage2_collect_rankings envAllOkPadded excNone "q"
          (stage1_collect_responses envAllOkPadded excNone "q" COUNCIL_MODELS).1
          COUNCIL_MODELS).1 ∧
    stage3_synthesize envAllOk "q"
        (stage1_collect_responses envAllOk excNone "q" COUNCIL_MODELS).1
        (stage2_collect_rankings envAllOk excNone "q"
          (stage1_collect_responses envAllOk excNone "q" COUNCIL_MODELS).1 COUNCIL_MODELS).1 =
      stage3_synthesize envAllOk "q"
        (stage1_collect_responses envAllOkPadded excNone "q" COUNCIL_MODELS).1
        (stage2_collect_rankings envAllOkPadded excNone "q"
          (stage1_collect_responses envAllOkPadded excNone "q" COUNCIL_MODELS).1
          COUNCIL_MODELS).1 :=
  chairman_prompt_ignores_reveal envAllOk envAllOkPadded envAllOk excNone excNone "q"
    COUNCIL_MODELS COUNCIL_MODELS COUNCIL_MODELS COUNCIL_MODELS
    (by decide) (by decide)

/-- C10: a call that succeeds but strips to the empty string is treated like
a failed call at every filtering point: its model is excluded from Stage 1's
survivors and from Stage 2's ranking records, and a chairman answer that
strips to empty makes Stage 3 return the sentinel. -/
theorem empty_answer_filtered
    (env : Call → RunResult) (exc : String → String → Bool) (query : String)
    (order1 order2 : List String) (s1 : List ResponseRecord)
    (s2 : List RankingRecord) (m : String) :
    ((query_model env m query).1 = some "" →
      ∀ r ∈ (stage1_collect_responses env exc query order1).1, r.model ≠ m) ∧
    ((query_model env m (stage2_ranking_prompt query s1)).1 = some "" →
      ∀ r ∈ (stage2_collect_rankings env exc query s1 order2).1, r.model ≠ m) ∧
    (∀ stdout stderr,
      env (Call.mk CHAIRMAN_MODEL (chairman_prompt query s1 s2) 180) =
        RunResult.completed 0 stdout stderr →
      py_strip stdout = "" →
      (stage3_synthesize env query s1 s2).1 = chairman_failure_message) := by
  refine ⟨?_, ?_, ?_⟩
  · intro hempty r hr heq
    obtain ⟨hne, hmem⟩ := mem_keep_present_responses hr
    rcases List.mem_map.mp hmem with ⟨m2, _, hpair⟩
    have hm2 : m2 = r.model := congrArg Prod.fst hpair
    have hval : (if exc m2 query then none else (query_model env m2 query).1) =
        some r.response := congrArg Prod.snd hpair
    rw [hm2, heq] at hval
    by_cases hexc : exc m query
    · rw [if_pos hexc] at hval
      exact Option.noConfusion hval
    · rw [if_neg hexc, hempty] at hval
      exact hne (Option.some.inj hval).symm
  · intro hempty r hr heq
    obtain ⟨hne, hmem⟩ := mem_keep_present_rankings hr
    rcases List.mem_map.mp hmem with ⟨m2, _, hpair⟩
    have hm2 : m2 = r.model := congrArg Prod.fst hpair
    have hval : (if exc m2 (stage2_ranking_prompt query s1) then none
        else (query_model env m2 (stage2_ranking_prompt query s1)).1) =
        some r.ranking := congrArg Prod.snd hpair
    rw [hm2, heq] at hval
    by_cases hexc : exc m (stage2_ranking_prompt query s1)
    · rw [if_pos hexc] at hval
      exact Option.noConfusion hval
    · rw [if_neg hexc, hempty] at hval
      exact hne (Option.some.inj hval).symm
  · intro stdout stderr henv hstrip
    simp [stage3_synthesize, query_model, henv, hstrip]

end LlmCouncil
